import Mathlib

/-!
# Verification of the FurAffinity-API authorization / error-normalization core

Shallow embedding of the Python sources:
* `src/app/models.py`       — cookie bodies, fingerprinting, response shaping
* `src/app/exceptions.py`   — the outward error taxonomy
* `src/app/main.py`         — authorize / deauthorize / content endpoints
* `src/furaffinity_api/main.py` — the per-IP pacing variant and its handlers

Machine integers are modelled as `Nat` with explicit reduction modulo `2 ^ 32`
where the source relies on 32-bit wraparound (the SHA-1 digest used by
`Body.cookies_id`).  Database state is modelled as an explicit list of rows.
-/

namespace FurAffinityApi

/-! ## SHA-1 (the digest behind `Body.cookies_id`, `src/app/models.py` line 36)

`hashlib.sha1` over the UTF-8 bytes of the concatenated `name=value` pairs,
rendered as lowercase hex.  The implementation below is the standard SHA-1
(FIPS 180-4) on byte lists, written with `Nat` arithmetic modulo `2 ^ 32`. -/

/-- 2 ^ 32, the modulus for all 32-bit SHA-1 arithmetic. -/
def w32 : Nat := 4294967296

/-- Left-rotation of a 32-bit word by `n` places. -/
def rotl (n x : Nat) : Nat := ((x <<< n) ||| (x >>> (32 - n))) % w32

/-- UTF-8 encoding of a single character, as a list of byte values. -/
def utf8Char (c : Char) : List Nat :=
  let n := c.toNat
  if n < 128 then [n]
  else if n < 2048 then [192 + n / 64, 128 + n % 64]
  else if n < 65536 then [224 + n / 4096, 128 + n / 64 % 64, 128 + n % 64]
  else [240 + n / 262144, 128 + n / 4096 % 64, 128 + n / 64 % 64, 128 + n % 64]

/-- UTF-8 encoding of a string (`str.encode()` in the source). -/
def utf8Bytes (s : String) : List Nat :=
  (s.toList.map utf8Char).flatten

/-- `k` bytes of `v` in big-endian order. -/
def beBytes : Nat → Nat → List Nat
  | 0, _ => []
  | k + 1, v => beBytes k (v / 256) ++ [v % 256]

/-- SHA-1 padding: append `0x80`, zero bytes to 56 mod 64, and the 64-bit
big-endian bit length. -/
def sha1pad (msg : List Nat) : List Nat :=
  let zeros := (64 - (msg.length + 9) % 64) % 64
  msg ++ 128 :: List.replicate zeros 0 ++ beBytes 8 (msg.length * 8)

/-- Big-endian 32-bit words from a byte list (length a multiple of 4). -/
def bytesToWords : List Nat → List Nat
  | b0 :: b1 :: b2 :: b3 :: rest =>
      (((b0 * 256 + b1) * 256 + b2) * 256 + b3) :: bytesToWords rest
  | _ => []

/-- Split a word list into blocks of 16 words. -/
def chunkWords : List Nat → List (List Nat)
  | w0 :: w1 :: w2 :: w3 :: w4 :: w5 :: w6 :: w7 ::
    w8 :: w9 :: w10 :: w11 :: w12 :: w13 :: w14 :: w15 :: rest =>
      [w0, w1, w2, w3, w4, w5, w6, w7, w8, w9, w10, w11, w12, w13, w14, w15]
        :: chunkWords rest
  | _ => []

/-- Message-schedule extension, keeping the words produced so far in reverse
order: the head is `w[i-1]`, so `w[i-3]`, `w[i-8]`, `w[i-14]`, `w[i-16]` sit
at positions 2, 7, 13 and 15. -/
def extendRev (acc : List Nat) : Nat → List Nat
  | 0 => acc
  | k + 1 =>
      extendRev
        (rotl 1 ((acc.getD 2 0) ^^^ (acc.getD 7 0) ^^^ (acc.getD 13 0) ^^^ (acc.getD 15 0)) :: acc)
        k

/-- The SHA-1 round function `f` for round `i`. -/
def sha1f (i b c d : Nat) : Nat :=
  if i < 20 then (b &&& c) ||| ((b ^^^ 4294967295) &&& d)
  else if i < 40 then b ^^^ c ^^^ d
  else if i < 60 then (b &&& c) ||| (b &&& d) ||| (c &&& d)
  else b ^^^ c ^^^ d

/-- The SHA-1 round constant `k` for round `i`. -/
def sha1k (i : Nat) : Nat :=
  if i < 20 then 1518500249
  else if i < 40 then 1859775393
  else if i < 60 then 2400959708
  else 3395469782

/-- The running hash state `(h0, h1, h2, h3, h4)`. -/
structure Sha1State where
  h0 : Nat
  h1 : Nat
  h2 : Nat
  h3 : Nat
  h4 : Nat
deriving DecidableEq

/-- One SHA-1 round on `(a, b, c, d, e, round-index)`. -/
def sha1step (st : Nat × Nat × Nat × Nat × Nat × Nat) (w : Nat) :
    Nat × Nat × Nat × Nat × Nat × Nat :=
  match st with
  | (a, b, c, d, e, i) =>
      ((rotl 5 a + sha1f i b c d + e + sha1k i + w) % w32, a, rotl 30 b, c, d, i + 1)

/-- Compress one 16-word block into the running state. -/
def processBlock (st : Sha1State) (block : List Nat) : Sha1State :=
  let ws := (extendRev block.reverse 64).reverse
  match ws.foldl sha1step (st.h0, st.h1, st.h2, st.h3, st.h4, 0) with
  | (a, b, c, d, e, _) =>
      ⟨(st.h0 + a) % w32, (st.h1 + b) % w32, (st.h2 + c) % w32,
       (st.h3 + d) % w32, (st.h4 + e) % w32⟩

/-- The 20 digest bytes of a final state, big-endian per word. -/
def digestBytes (st : Sha1State) : List Nat :=
  beBytes 4 st.h0 ++ beBytes 4 st.h1 ++ beBytes 4 st.h2 ++ beBytes 4 st.h3 ++ beBytes 4 st.h4

/-- SHA-1 of a byte list: 20 digest bytes. -/
def sha1Bytes (msg : List Nat) : List Nat :=
  digestBytes
    ((chunkWords (bytesToWords (sha1pad msg))).foldl processBlock
      ⟨1732584193, 4023233417, 2562383102, 271733878, 3285377520⟩)

/-- One lowercase hex digit. -/
def hexDigit (n : Nat) : Char :=
  if n < 10 then Char.ofNat (48 + n) else Char.ofNat (87 + n)

/-- Two lowercase hex digits of one byte. -/
def hexByte (b : Nat) : List Char :=
  [hexDigit (b / 16), hexDigit (b % 16)]

/-- Lowercase hex rendering of a byte list (`.hexdigest()`). -/
def hexOfBytes (bs : List Nat) : String :=
  String.mk ((bs.map hexByte).flatten)

/-! ## Cookies and fingerprints (`src/app/models.py`, `Cookie` / `Body`) -/

/-- A cookie `{name, value}` pair (`class Cookie`). -/
structure Cookie where
  name : String
  value : String
deriving DecidableEq

/-- The serialization `"".join(f"{c.name}={c.value}" for c in cookies)`. -/
def cookieString (cookies : List Cookie) : String :=
  String.join (cookies.map (fun c => c.name ++ "=" ++ c.value))

/-- `Body.cookies_id`: lowercase-hex SHA-1 of the UTF-8 bytes of the
concatenated `name=value` pairs (`src/app/models.py` lines 35-36). -/
def cookies_id (cookies : List Cookie) : String :=
  hexOfBytes (sha1Bytes (utf8Bytes (cookieString cookies)))

/-! ## Error taxonomy (`src/app/exceptions.py`)

Each exception class fixes a class name and a default HTTP status code; the
`detail` payload is `string | list-of-strings | null` (class `Error` in
`src/app/models.py` documents it as `Optional[Union[str, list[str]]]`). -/

/-- An error `detail` payload: a string or a list of strings (absent = `none`). -/
inductive Detail where
  | str (s : String)
  | strs (l : List String)
deriving DecidableEq

/-- A raised `HTTPException`: its class name, `detail` payload and status code. -/
structure HTTPError where
  name : String
  detail : Option Detail
  status_code : Nat
deriving DecidableEq

/-- `class NotFound(HTTPException)` with default status 404. -/
def notFoundErr (detail : Option Detail) : HTTPError := ⟨"NotFound", detail, 404⟩

/-- `class DisallowedPath(HTTPException)` with default status 403. -/
def disallowedPathErr (detail : Option Detail) : HTTPError := ⟨"DisallowedPath", detail, 403⟩

/-- `class Unauthorized(HTTPException)` with default status 401. -/
def unauthorizedErr (detail : Option Detail) : HTTPError := ⟨"Unauthorized", detail, 401⟩

/-- `class ParsingError(HTTPException)` with default status 500. -/
def parsingErrorErr (detail : Option Detail) : HTTPError := ⟨"ParsingError", detail, 500⟩

/-- JSON-ish values appearing in response bodies. -/
inductive JValue where
  | null
  | str (s : String)
  | int (n : Int)
  | strs (l : List String)
  | date (ts : Int)
  | pairs (l : List (String × String))
  | stats (l : List (String × Int))
deriving DecidableEq

/-- Render a `detail` payload as JSON. -/
def detailJValue : Option Detail → JValue
  | none => JValue.null
  | some (Detail.str s) => JValue.str s
  | some (Detail.strs l) => JValue.strs l

/-- An HTTP error response: a JSON object body plus a status code. -/
structure ErrorResponse where
  body : List (String × JValue)
  status_code : Nat
deriving DecidableEq

/-- `handle_http_exception` (`src/app/main.py` lines 101-103): the body is
`{"error": class name, "details": detail}` with the exception's status code. -/
def handle_http_exception (err : HTTPError) : ErrorResponse :=
  ⟨[("error", JValue.str err.name), ("details", detailJValue err.detail)], err.status_code⟩

/-- `handle_http_exception` in `src/furaffinity_api/main.py` lines 54-56:
the body is `{"error": detail}` with the exception's status code. -/
def fa_handle_http_exception (err : HTTPError) : ErrorResponse :=
  ⟨[("error", detailJValue err.detail)], err.status_code⟩

/-- The field list of the `Error` response model declared for the 401/403/404
responses (`src/app/models.py` lines 43-47): a single `detail` field. -/
def errorModelFields : List String := ["detail"]

/-- The four external failure variants of the scraping client named by the
spec's normalization table (login/notice signal, upstream server error,
robots-disallowed path, structural parse failure). -/
inductive ExternalFailure where
  | noticeMessage
  | serverError
  | disallowedPath
  | parsingFailure
deriving DecidableEq

/-- The exception handlers registered in `src/app/main.py` lines 106-118:
`NoticeMessage ↦ Unauthorized()`, `ServerError ↦ NotFound()`,
`DisallowedPath ↦ DisallowedPath()`.  No handler is registered for a
structural parse failure in that file. -/
def registeredHandler : ExternalFailure → Option HTTPError
  | ExternalFailure.noticeMessage => some (unauthorizedErr none)
  | ExternalFailure.serverError => some (notFoundErr none)
  | ExternalFailure.disallowedPath => some (disallowedPathErr none)
  | ExternalFailure.parsingFailure => none

/-- `handle_notice_message` (`src/app/main.py` lines 106-108). -/
def handle_notice_message : ErrorResponse := handle_http_exception (unauthorizedErr none)

/-- `handle_server_error` (`src/app/main.py` lines 111-113). -/
def handle_server_error : ErrorResponse := handle_http_exception (notFoundErr none)

/-- `handle_disallowed_path` (`src/app/main.py` lines 116-118). -/
def handle_disallowed_path : ErrorResponse := handle_http_exception (disallowedPathErr none)

/-- All four external failure variants. -/
def allFailures : List ExternalFailure :=
  [ExternalFailure.noticeMessage, ExternalFailure.serverError,
   ExternalFailure.disallowedPath, ExternalFailure.parsingFailure]

/-- The error kinds actually produced by the registered handlers. -/
def normalizedKinds : List String :=
  (allFailures.filterMap registeredHandler).map HTTPError.name

/-! ## The authorization store (table `AUTHS`, `src/app/main.py`)

One row per confirmed credential set: `(ID character(40) primary key,
ADDED float)`.  Rows are modelled as a list, newest first; `ADDED` is an
abstract monotone timestamp (`Nat`), since the code only ever orders by it. -/

/-- One `AUTHS` row. -/
structure AuthRecord where
  id : String
  added : Nat
deriving DecidableEq

/-- The `AUTHS` table. -/
abbrev Store : Type := List AuthRecord

instance {α β : Type} [DecidableEq α] [DecidableEq β] : DecidableEq (Except α β) :=
  fun a b =>
    match a, b with
    | Except.ok x, Except.ok y => decidable_of_iff (x = y) (by simp)
    | Except.error x, Except.error y => decidable_of_iff (x = y) (by simp)
    | Except.ok _, Except.error _ => isFalse (by simp)
    | Except.error _, Except.ok _ => isFalse (by simp)

/-- An exception escaping an endpoint: either a raised `HTTPException`
(these reach `handle_http_exception`) or the uncaught `TypeError` that
`cursor.execute` raises at `src/app/main.py` line 170 — the query parameter
there, `(tot - database_limit)`, is a bare int (no trailing comma), and
psycopg2 requires a sequence or mapping as its `vars` argument, raising
`TypeError` before any SQL runs.  A `TypeError` is not an `HTTPException`
and has no registered handler, so it surfaces as an uncategorized server
error. -/
inductive RaisedError where
  | http (e : HTTPError)
  | typeError
deriving DecidableEq

/-- The count / evict / insert block on the success path of
`authorize_cookies` (`src/app/main.py` lines 168-176).  If
`count > database_limit`, the eviction query at line 170 raises `TypeError`
(bare-int psycopg2 parameters, see `RaisedError`) before any SQL runs:
nothing is deleted, the insert at line 174 is never reached, and the
exception escapes.  Otherwise the `if` body is skipped entirely and
`(fingerprint, now)` is inserted. -/
def insertAuth (limit : Nat) (s : Store) (fp : String) (t : Nat) :
    Except RaisedError Store :=
  if s.length > limit then Except.error RaisedError.typeError
  else Except.ok (⟨fp, t⟩ :: s)

/-- The `{"id", "exists", "added", "removed"}` response dictionaries returned
by the authorization endpoints (absent keys are `none`). -/
structure AuthResp where
  id : String
  exists_ : Option Bool
  added : Option Bool
  removed : Option Bool
deriving DecidableEq

/-- Outcome of an authorization operation: the returned value or raised
exception, the store afterwards, and how many external (FAAPI) calls the
operation performed. -/
structure AuthOutcome where
  result : Except RaisedError AuthResp
  store : Store
  extCalls : Nat
deriving DecidableEq

/-- The body of `authorize_cookies` after the fingerprint has been computed
(`src/app/main.py` lines 162-178): a cached fingerprint returns
`{exists: true, added: false}` with no external call; otherwise one external
`login_status` check either raises `Unauthorized("Not a login session")` or
runs the count/evict/insert block — which inserts the new row and returns
`{added: true}` when the store is within `database_limit`, and raises the
uncaught `TypeError` (store untouched) when it is over. -/
def authorizeWithId (login_ok : Bool) (limit : Nat) (s : Store) (fp : String) (t : Nat) :
    AuthOutcome :=
  if s.any (fun r => r.id == fp) then
    ⟨Except.ok ⟨fp, some true, some false, none⟩, s, 0⟩
  else if !login_ok then
    ⟨Except.error (RaisedError.http (unauthorizedErr (some (Detail.str "Not a login session")))),
     s, 1⟩
  else
    match insertAuth limit s fp t with
    | Except.error e => ⟨Except.error e, s, 1⟩
    | Except.ok s2 => ⟨Except.ok ⟨fp, none, some true, none⟩, s2, 1⟩

/-- `authorize_cookies` (`src/app/main.py` lines 151-178).  `login_status`
abstracts `faapi.FAAPI(body.cookies_list()).login_status`; constructing the
FAAPI client and reading `login_status` is the one external validation call. -/
def authorize_cookies (login_status : List Cookie → Bool) (limit : Nat) (s : Store)
    (cookies : List Cookie) (t : Nat) : AuthOutcome :=
  if cookies.isEmpty then
    ⟨Except.error (RaisedError.http (unauthorizedErr (some (Detail.str "Missing cookies")))),
     s, 0⟩
  else
    authorizeWithId (login_status cookies) limit s (cookies_id cookies) t

/-- `deauthorize_cookies` (`src/app/main.py` lines 134-148): empty cookies
raise `Unauthorized`; an absent fingerprint is a no-op `{"id"}`; a present
fingerprint is deleted and `{exists: true, removed: true}` returned.  The
endpoint performs no external call. -/
def deauthorize_cookies (s : Store) (cookies : List Cookie) : AuthOutcome :=
  if cookies.isEmpty then
    ⟨Except.error (RaisedError.http (unauthorizedErr (some (Detail.str "Missing cookies")))),
     s, 0⟩
  else
    let fp := cookies_id cookies
    if s.any (fun r => r.id == fp) then
      ⟨Except.ok ⟨fp, some true, none, some true⟩, s.filter (fun r => !(r.id == fp)), 0⟩
    else
      ⟨Except.ok ⟨fp, none, none, none⟩, s, 0⟩

/-! ## Content endpoints

In `src/app/main.py` every content endpoint (`get_submission`, `get_journal`,
`get_login_user`, `get_user`, watchlists, gallery, scraps, favorites,
journals; lines 181-311) has the same shape: `await authorize_cookies(body)`
first, then one fetch through the FAAPI client.  `fetch` abstracts that
resource fetch (it returns the domain object or raises one of the client's
failure variants, already normalized to an `HTTPError` here). -/

/-- Outcome of a content request: the response or raised error, the
authorization store afterwards, the number of external login-validation
calls, and the number of resource fetches performed. -/
structure FetchOutcome (α : Type) where
  result : Except RaisedError α
  store : Store
  loginCalls : Nat
  fetchCalls : Nat
deriving DecidableEq

/-- The common shape of every content endpoint in `src/app/main.py`:
run the full `authorize_cookies` flow, propagate its exception if it raises,
otherwise perform the resource fetch (whose own failure variants are raised
`HTTPException`-class errors). -/
def app_content_endpoint {α : Type} (login_status : List Cookie → Bool) (limit : Nat)
    (s : Store) (cookies : List Cookie) (t : Nat)
    (fetch : List Cookie → Except HTTPError α) : FetchOutcome α :=
  let auth := authorize_cookies login_status limit s cookies t
  match auth.result with
  | Except.error e => ⟨Except.error e, auth.store, auth.extCalls, 0⟩
  | Except.ok _ =>
      ⟨(fetch cookies).mapError RaisedError.http, auth.store, auth.extCalls, 1⟩

/-- `get_submission` (`src/app/main.py` lines 181-190), instantiating the
common endpoint shape with the submission fetch. -/
def app_get_submission {α : Type} (login_status : List Cookie → Bool) (limit : Nat)
    (s : Store) (cookies : List Cookie) (t : Nat)
    (fetch : List Cookie → Nat → Except HTTPError α) (submission_id : Nat) : FetchOutcome α :=
  app_content_endpoint login_status limit s cookies t (fun c => fetch c submission_id)

/-- `get_submission` in `src/furaffinity_api/main.py` lines 86-93: no
authorization flow and no empty-cookie check — the handler passes the cookie
list (empty or not) straight to the FAAPI client and returns the fetch
result.  The second component counts the fetches performed. -/
def fa_get_submission {α : Type} (fetch : List Cookie → Nat → Except HTTPError α)
    (cookies : List Cookie) (submission_id : Nat) : Except HTTPError α × Nat :=
  (fetch cookies submission_id, 1)

/-! ## Response shaper (`src/app/models.py` lines 231-249)

`faapi.User.__iter__` / `faapi.UserPartial.__iter__` are overridden by
`iter_user` / `iter_user_partial`; the projected field lists below mirror the
`yield` statements.  A `datetime` is modelled by its `timestamp()` value. -/

/-- A `faapi.User` domain object (the fields read by `iter_user`);
`join_date` is the underlying timestamp of the join-date `datetime`. -/
structure FaUser where
  name : String
  status : String
  title : String
  join_date : Int
  profile : String
  stats : List (String × Int)
  info : List (String × String)
  contacts : List (String × String)
  user_icon_url : String
deriving DecidableEq

/-- A `faapi.UserPartial` domain object (the fields read by the partial-user
projection). -/
structure FaUserMini where
  name : String
  status : String
  title : String
  join_date : Int
  user_icon_url : String
deriving DecidableEq

/-- The join-date sentinel projection used by both user projections:
`usr.join_date if usr.join_date.timestamp() > 0 else None`. -/
def joinDateField (ts : Int) : JValue :=
  if ts > 0 then JValue.date ts else JValue.null

/-- `iter_user` (`src/app/models.py` lines 231-241). -/
def iter_user (usr : FaUser) : List (String × JValue) :=
  [("name", JValue.str usr.name),
   ("status", JValue.str usr.status),
   ("title", JValue.str usr.title),
   ("join_date", joinDateField usr.join_date),
   ("profile", JValue.str usr.profile),
   ("stats", JValue.stats usr.stats),
   ("info", JValue.pairs usr.info),
   ("contacts", JValue.pairs usr.contacts),
   ("user_icon_url", JValue.str usr.user_icon_url)]

/-- `iter_user_partial` (`src/app/models.py` lines 244-249); renamed here
with a `_fn` suffix.  The status field is `usr.status if usr.status else
None` (an empty string is falsy in Python). -/
def iter_user_partial_fn (usr : FaUserMini) : List (String × JValue) :=
  [("name", JValue.str usr.name),
   ("status", if usr.status == "" then JValue.null else JValue.str usr.status),
   ("title", JValue.str usr.title),
   ("join_date", joinDateField usr.join_date),
   ("user_icon_url", JValue.str usr.user_icon_url)]

/-! ## Per-source outbound pacing (`src/furaffinity_api/main.py` lines 76-82)

`wait_ip` reads the caller's last-call timestamp from the module-level
`ip_list.ips` dictionary, sleeps while the handler is suspended, and stores a
fresh `time()` afterwards.  Time is modelled as exact rational seconds: the
handler resumes at `t + sleep-duration`, which is also the value of the
second `time()` call. -/

/-- Result of one `wait_ip` call: the duration passed to `sleep` (0 when no
sleep happened), the time at which the handler resumes, and the updated
per-IP table. -/
structure WaitOutcome where
  sleepDur : ℚ
  resume : ℚ
  ips : List (String × ℚ)
deriving DecidableEq

/-- `wait_ip`: with `last = ips.get(ip)` and `d = t - last`, the handler
sleeps `d` when a previous (truthy, i.e. nonzero) timestamp exists and
`d < 1`; then `ips[ip] = time()` runs unconditionally. -/
def wait_ip (ips : List (String × ℚ)) (ip : String) (t : ℚ) : WaitOutcome :=
  let sleepDur : ℚ :=
    match ips.lookup ip with
    | some last => if last ≠ 0 ∧ t - last < 1 then t - last else 0
    | none => 0
  ⟨sleepDur, t + sleepDur, (ip, t + sleepDur) :: ips.filter (fun p => !(p.1 == ip))⟩

/-! ## Sequential authorization runs (for the eviction-bound analysis)

`runN limit fp n` is the store after `n` sequential authorize attempts
starting from the empty store: step `i` authorizes the fresh, valid
fingerprint `fp i` at time `i` through the real `authorizeWithId` path.
Steps that hit the broken eviction query raise and leave the store as is. -/

/-- The store after `n` sequential authorize attempts for fingerprints
`fp 0, fp 1, ...` at times `0, 1, ...`, all with a succeeding login check. -/
def runN (limit : Nat) (fp : Nat → String) : Nat → Store
  | 0 => []
  | n + 1 => (authorizeWithId true limit (runN limit fp n) (fp n) n).store

/-- A concrete injective fingerprint family for traces: `i` letters `a`. -/
def cexFp (i : Nat) : String := String.mk (List.replicate i 'a')

/-! ## Helper lemmas -/

theorem length_beBytes (k : Nat) : ∀ v, (beBytes k v).length = k := by
  induction k with
  | zero => intro v; rfl
  | succ k ih => intro v; simp [beBytes, ih]

theorem length_digestBytes (st : Sha1State) : (digestBytes st).length = 20 := by
  cases st; simp [digestBytes, length_beBytes]

theorem length_sha1Bytes (msg : List Nat) : (sha1Bytes msg).length = 20 := by
  simp [sha1Bytes, length_digestBytes]

theorem length_hexByte (b : Nat) : (hexByte b).length = 2 := rfl

theorem length_hexOfBytes (bs : List Nat) : (hexOfBytes bs).length = 2 * bs.length := by
  show ((bs.map hexByte).flatten).length = 2 * bs.length
  induction bs with
  | nil => rfl
  | cons b t ih => simp [List.flatten, ih, length_hexByte]; omega

/-! ## C2: credential fingerprinting -/

set_option maxRecDepth 8000

/-- C2: `Body.cookies_id` is a pure deterministic function of the ordered
cookie list — the lowercase-hex 160-bit SHA-1 digest of the UTF-8 bytes of
the pairs serialized as `name=value` and concatenated in list order.  The
fixed vector `[("a","1"),("b","2")]` and its reordering hash differently,
the empty list hashes to the digest of the empty string, and every digest
is 40 lowercase hex characters (160 bits). -/
theorem cookies_id_fingerprint :
    (∀ cookies : List Cookie,
        cookies_id cookies = hexOfBytes (sha1Bytes (utf8Bytes (cookieString cookies))))
    ∧ (cookies_id [⟨"a", "1"⟩, ⟨"b", "2"⟩] == cookies_id [⟨"b", "2"⟩, ⟨"a", "1"⟩]) = false
    ∧ cookies_id [⟨"a", "1"⟩, ⟨"b", "2"⟩] = "10cf73d13b980e22c78ecdc13f556962f871d697"
    ∧ cookies_id [⟨"b", "2"⟩, ⟨"a", "1"⟩] = "1d434d5ae8a543161745a8dab26dad473985fc74"
    ∧ cookies_id [] = "da39a3ee5e6b4b0d3255bfef95601890afd80709"
    ∧ ∀ cookies : List Cookie, (cookies_id cookies).length = 40 := by
  refine ⟨fun _ => rfl, by decide, by decide, by decide, by decide, fun cookies => ?_⟩
  show (hexOfBytes (sha1Bytes (utf8Bytes (cookieString cookies)))).length = 40
  rw [length_hexOfBytes, length_sha1Bytes]

/-! ## C4: empty credential sets -/

/-- C4: with an empty credential list, both `authorize_cookies` and
`deauthorize_cookies` raise `Unauthorized("Missing cookies")`, perform no
external call, and return the store unchanged. -/
theorem empty_credentials_rejected (login_status : List Cookie → Bool) (limit : Nat)
    (s : Store) (t : Nat) :
    authorize_cookies login_status limit s [] t
      = ⟨Except.error (RaisedError.http (unauthorizedErr (some (Detail.str "Missing cookies")))),
         s, 0⟩
    ∧ deauthorize_cookies s []
      = ⟨Except.error (RaisedError.http (unauthorizedErr (some (Detail.str "Missing cookies")))),
         s, 0⟩ :=
  ⟨rfl, rfl⟩

/-! ## C5: the error-normalization table -/

/-- C5 counterexample: `src/app/main.py` registers no exception handler for a
structural parse failure — only the notice-message, server-error and
disallowed-path variants are normalized, so the fourth variant of the claim
is not mapped to a `ParsingError` 500 response by the normalizer. -/
theorem error_normalizer_cex :
    registeredHandler ExternalFailure.parsingFailure = none
    ∧ (allFailures.filterMap registeredHandler).length = 3 := by
  decide

/-- C5 amended: the three registered handlers normalize the notice-message,
server-error and disallowed-path variants to `Unauthorized` 401, `NotFound`
404 and `DisallowedPath` 403 respectively, and produce no kind outside that
set; the `ParsingError` exception class does carry status 500, but no handler
maps the external parse-failure variant to it. -/
theorem error_normalizer_amended :
    registeredHandler ExternalFailure.noticeMessage = some (unauthorizedErr none)
    ∧ handle_notice_message.status_code = 401
    ∧ handle_notice_message.body.lookup "error" = some (JValue.str "Unauthorized")
    ∧ registeredHandler ExternalFailure.serverError = some (notFoundErr none)
    ∧ handle_server_error.status_code = 404
    ∧ handle_server_error.body.lookup "error" = some (JValue.str "NotFound")
    ∧ registeredHandler ExternalFailure.disallowedPath = some (disallowedPathErr none)
    ∧ handle_disallowed_path.status_code = 403
    ∧ handle_disallowed_path.body.lookup "error" = some (JValue.str "DisallowedPath")
    ∧ (parsingErrorErr none).status_code = 500
    ∧ normalizedKinds = ["Unauthorized", "NotFound", "DisallowedPath"] := by
  decide

/-! ## C6: the error body shape -/

/-- C6: the exception handlers do not produce `{detail: ...}` bodies.  For a
`NotFound` raised on a nonexistent submission the `src/app/main.py` handler
returns status 404 with body keys `error` and `details` (no `detail` key),
and the `src/furaffinity_api/main.py` handler returns body key `error` —
while the `Error` response model those endpoints declare documents a single
`detail` field. -/
theorem error_body_shape_bug :
    (handle_http_exception (notFoundErr none)).status_code = 404
    ∧ (handle_http_exception (notFoundErr none)).body.map Prod.fst = ["error", "details"]
    ∧ ((handle_http_exception (notFoundErr none)).body.map Prod.fst).contains "detail" = false
    ∧ (fa_handle_http_exception (notFoundErr none)).body.map Prod.fst = ["error"]
    ∧ ((fa_handle_http_exception (notFoundErr none)).body.map Prod.fst).contains "detail" = false
    ∧ errorModelFields = ["detail"] := by
  decide

/-! ## C7: join-date sentinel normalization -/

/-- C7: both user projections present a join date with underlying timestamp
zero as `null`, and any positive timestamp as the corresponding datetime
unchanged. -/
theorem join_date_sentinel (usr : FaUser) (mini : FaUserMini) :
    (usr.join_date = 0 → (iter_user usr).lookup "join_date" = some JValue.null)
    ∧ (0 < usr.join_date →
        (iter_user usr).lookup "join_date" = some (JValue.date usr.join_date))
    ∧ (mini.join_date = 0 →
        (iter_user_partial_fn mini).lookup "join_date" = some JValue.null)
    ∧ (0 < mini.join_date →
        (iter_user_partial_fn mini).lookup "join_date" = some (JValue.date mini.join_date)) := by
  refine ⟨fun h => ?_, fun h => ?_, fun h => ?_, fun h => ?_⟩ <;>
    simp [iter_user, iter_user_partial_fn, joinDateField, List.lookup, h]

/-- C7 witness: concrete evaluations at timestamps 0 and 1700000000. -/
theorem join_date_sentinel_witness :
    (iter_user ⟨"u", "~", "", 0, "", [], [], [], ""⟩).lookup "join_date" = some JValue.null
    ∧ (iter_user ⟨"u", "~", "", 1700000000, "", [], [], [], ""⟩).lookup "join_date"
        = some (JValue.date 1700000000)
    ∧ (iter_user_partial_fn ⟨"u", "", "", 0, ""⟩).lookup "join_date" = some JValue.null
    ∧ (iter_user_partial_fn ⟨"u", "", "", 1700000000, ""⟩).lookup "join_date"
        = some (JValue.date 1700000000) :=
  ⟨(join_date_sentinel ⟨"u", "~", "", 0, "", [], [], [], ""⟩ ⟨"u", "", "", 0, ""⟩).1 rfl,
   (join_date_sentinel ⟨"u", "~", "", 1700000000, "", [], [], [], ""⟩
      ⟨"u", "", "", 1700000000, ""⟩).2.1 (by decide),
   (join_date_sentinel ⟨"u", "~", "", 0, "", [], [], [], ""⟩ ⟨"u", "", "", 0, ""⟩).2.2.1 rfl,
   (join_date_sentinel ⟨"u", "~", "", 1700000000, "", [], [], [], ""⟩
      ⟨"u", "", "", 1700000000, ""⟩).2.2.2 (by decide)⟩

/-! ## C8: per-source pacing -/

/-- C8: `wait_ip` sleeps the *elapsed* interval `d = t - last` instead of the
remaining interval `1 - d`.  With a previous call at time 10 and the next
call at 10.2, the handler sleeps 0.2 and resumes at 10.4 — only 0.4 of a
time-unit after the previous call, violating the claimed 1-unit minimum.
The last-call timestamp is nevertheless updated (unconditionally). -/
theorem wait_ip_pacing_bug :
    (wait_ip [("1.2.3.4", 10)] "1.2.3.4" (51 / 5)).sleepDur = 1 / 5
    ∧ (wait_ip [("1.2.3.4", 10)] "1.2.3.4" (51 / 5)).resume = 52 / 5
    ∧ (wait_ip [("1.2.3.4", 10)] "1.2.3.4" (51 / 5)).resume - 10 < 1
    ∧ (wait_ip [("1.2.3.4", 10)] "1.2.3.4" (51 / 5)).ips.lookup "1.2.3.4" = some (52 / 5)
    ∧ ∀ (ips : List (String × ℚ)) (ip : String) (t : ℚ),
        (wait_ip ips ip t).ips.lookup ip = some ((wait_ip ips ip t).resume) := by
  refine ⟨by norm_num [wait_ip, List.lookup], by norm_num [wait_ip, List.lookup],
    by norm_num [wait_ip, List.lookup], by norm_num [wait_ip, List.lookup], ?_⟩
  intro ips ip t
  simp [wait_ip, List.lookup]

/-! ## C9: empty cookies on content endpoints -/

/-- C9 counterexample: in `src/app/main.py` a content request (here
`get_submission` for a public resource whose fetch would succeed) with an
empty cookie list fails with `Unauthorized("Missing cookies")` before any
fetch is attempted — the empty list alone makes it fail. -/
theorem empty_cookies_public_cex :
    (app_get_submission (fun _ => true) 10 [] [] 0
        (fun _ _ => Except.ok (0 : Nat)) 1).result
      = Except.error (RaisedError.http (unauthorizedErr (some (Detail.str "Missing cookies"))))
    ∧ (app_get_submission (fun _ => true) 10 [] [] 0
        (fun _ _ => Except.ok (0 : Nat)) 1).fetchCalls = 0 :=
  ⟨rfl, rfl⟩

/-- C9 amended: only the `src/furaffinity_api/main.py` variant accepts an
empty cookies list on content endpoints: its `get_submission` performs no
empty-cookie check and simply returns the fetch result, so a public resource
whose fetch succeeds is served; the `src/app/main.py` variant instead runs
`authorize_cookies` first and rejects empty cookies with `Unauthorized`. -/
theorem empty_cookies_public_amended {α : Type} (fetch : List Cookie → Nat → Except HTTPError α)
    (submission_id : Nat) (x : α) (hfetch : fetch [] submission_id = Except.ok x) :
    (fa_get_submission fetch [] submission_id).1 = Except.ok x
    ∧ (fa_get_submission fetch [] submission_id).2 = 1 :=
  ⟨hfetch, rfl⟩

/-- C9 witness: a concrete public fetch with empty cookies is served. -/
theorem empty_cookies_public_witness :
    (fa_get_submission (fun _ _ => Except.ok (7 : Nat)) [] 1).1 = Except.ok 7
    ∧ (fa_get_submission (fun _ _ => Except.ok (7 : Nat)) [] 1).2 = 1 :=
  empty_cookies_public_amended (fun _ _ => Except.ok (7 : Nat)) 1 7 rfl

/-! ## C3: cache idempotence of authorize -/

theorem countP_eq_zero_of_fresh {s : Store} {fp : String}
    (hfresh : s.any (fun r => r.id == fp) = false) :
    s.countP (fun r => r.id == fp) = 0 := by
  rw [List.countP_eq_zero]
  intro a ha
  have := List.any_eq_false.mp hfresh a ha
  simpa using this

/-- C3 counterexample: with `database_limit = 0` and one record already
stored, authorizing fresh valid cookies twice is NOT cache-idempotent: the
first call performs its external validation and then crashes with the
uncaught `TypeError` from the broken eviction query (storing nothing), and
the second call is another cache miss performing a second external
validation — two external calls in total and no stored record for the
fingerprint. -/
theorem authorize_idempotence_cex :
    (authorize_cookies (fun _ => true) 0 [⟨"x", 0⟩] [⟨"a", "1"⟩] 1).result
      = Except.error RaisedError.typeError
    ∧ (authorize_cookies (fun _ => true) 0 [⟨"x", 0⟩] [⟨"a", "1"⟩] 1).store = [⟨"x", 0⟩]
    ∧ (authorize_cookies (fun _ => true) 0 [⟨"x", 0⟩] [⟨"a", "1"⟩] 1).extCalls = 1
    ∧ (authorize_cookies (fun _ => true) 0
        (authorize_cookies (fun _ => true) 0 [⟨"x", 0⟩] [⟨"a", "1"⟩] 1).store
        [⟨"a", "1"⟩] 2).extCalls = 1
    ∧ (authorize_cookies (fun _ => true) 0
        (authorize_cookies (fun _ => true) 0 [⟨"x", 0⟩] [⟨"a", "1"⟩] 1).store
        [⟨"a", "1"⟩] 2).result = Except.error RaisedError.typeError
    ∧ ((authorize_cookies (fun _ => true) 0
        (authorize_cookies (fun _ => true) 0 [⟨"x", 0⟩] [⟨"a", "1"⟩] 1).store
        [⟨"a", "1"⟩] 2).store.countP (fun r => r.id == cookies_id [⟨"a", "1"⟩])) = 0 := by
  decide

/-- C3 amended: while the store holds at most `database_limit` records (so
the broken eviction query at `src/app/main.py` line 170 is not reached),
authorize is cache-idempotent: the first call for a valid, not-yet-cached,
non-empty credential set performs exactly one external validation call and
stores exactly one record for its fingerprint; the second call hits the
cache, makes no external call, returns `{id, exists: true, added: false}`
and leaves the store unchanged.  Above the limit the first call instead
raises the uncaught `TypeError` after its external validation and stores
nothing. -/
theorem authorize_cache_idempotent (login_status : List Cookie → Bool) (limit : Nat)
    (s : Store) (cookies : List Cookie) (t1 t2 : Nat)
    (hne : cookies ≠ []) (hval : login_status cookies = true)
    (hfresh : s.any (fun r => r.id == cookies_id cookies) = false)
    (hcap : s.length ≤ limit) :
    (authorize_cookies login_status limit s cookies t1).extCalls = 1
    ∧ (authorize_cookies login_status limit s cookies t1).result
        = Except.ok ⟨cookies_id cookies, none, some true, none⟩
    ∧ ((authorize_cookies login_status limit s cookies t1).store.countP
        (fun r => r.id == cookies_id cookies)) = 1
    ∧ (authorize_cookies login_status limit
        (authorize_cookies login_status limit s cookies t1).store cookies t2).extCalls = 0
    ∧ (authorize_cookies login_status limit
        (authorize_cookies login_status limit s cookies t1).store cookies t2).result
        = Except.ok ⟨cookies_id cookies, some true, some false, none⟩
    ∧ (authorize_cookies login_status limit
        (authorize_cookies login_status limit s cookies t1).store cookies t2).store
        = (authorize_cookies login_status limit s cookies t1).store := by
  have hemp : cookies.isEmpty = false := by
    cases cookies with
    | nil => exact absurd rfl hne
    | cons a l => rfl
  have hins : insertAuth limit s (cookies_id cookies) t1
      = Except.ok (⟨cookies_id cookies, t1⟩ :: s) := by
    unfold insertAuth
    rw [if_neg (by omega)]
  have h1 : authorize_cookies login_status limit s cookies t1
      = ⟨Except.ok ⟨cookies_id cookies, none, some true, none⟩,
         ⟨cookies_id cookies, t1⟩ :: s, 1⟩ := by
    simp [authorize_cookies, hemp, authorizeWithId, hfresh, hval, hins]
  have hcount : ((⟨cookies_id cookies, t1⟩ :: s : Store).countP
      (fun r => r.id == cookies_id cookies)) = 1 := by
    simp [List.countP_cons, countP_eq_zero_of_fresh hfresh]
  have h2 : authorize_cookies login_status limit
      (⟨cookies_id cookies, t1⟩ :: s) cookies t2
      = ⟨Except.ok ⟨cookies_id cookies, some true, some false, none⟩,
         ⟨cookies_id cookies, t1⟩ :: s, 0⟩ := by
    simp [authorize_cookies, hemp, authorizeWithId]
  rw [h1]
  refine ⟨rfl, rfl, hcount, ?_, ?_, ?_⟩ <;> rw [show (⟨Except.ok ⟨cookies_id cookies, none,
    some true, none⟩, ⟨cookies_id cookies, t1⟩ :: s, 1⟩ : AuthOutcome).store
      = ⟨cookies_id cookies, t1⟩ :: s from rfl, h2]

/-- C3 witness: concrete double authorization of `[("a","1")]` on the empty
store (within the capacity bound). -/
theorem authorize_cache_idempotent_witness :
    (authorize_cookies (fun _ => true) 5 [] [⟨"a", "1"⟩] 0).extCalls = 1
    ∧ (authorize_cookies (fun _ => true) 5 [] [⟨"a", "1"⟩] 0).result
        = Except.ok ⟨cookies_id [⟨"a", "1"⟩], none, some true, none⟩
    ∧ ((authorize_cookies (fun _ => true) 5 [] [⟨"a", "1"⟩] 0).store.countP
        (fun r => r.id == cookies_id [⟨"a", "1"⟩])) = 1
    ∧ (authorize_cookies (fun _ => true) 5
        (authorize_cookies (fun _ => true) 5 [] [⟨"a", "1"⟩] 0).store [⟨"a", "1"⟩] 1).extCalls = 0
    ∧ (authorize_cookies (fun _ => true) 5
        (authorize_cookies (fun _ => true) 5 [] [⟨"a", "1"⟩] 0).store [⟨"a", "1"⟩] 1).result
        = Except.ok ⟨cookies_id [⟨"a", "1"⟩], some true, some false, none⟩
    ∧ (authorize_cookies (fun _ => true) 5
        (authorize_cookies (fun _ => true) 5 [] [⟨"a", "1"⟩] 0).store [⟨"a", "1"⟩] 1).store
        = (authorize_cookies (fun _ => true) 5 [] [⟨"a", "1"⟩] 0).store :=
  authorize_cache_idempotent (fun _ => true) 5 [] [⟨"a", "1"⟩] 0 1
    (by decide) rfl rfl (by decide)

/-! ## C10: content endpoints write the authorization store -/

/-- C10 counterexample: with the store already over `database_limit` (here
`database_limit = 0` with one stored record), a content request with valid,
not-yet-cached cookies does NOT insert a record and does NOT reach the
fetch: the authorize step performs its external login validation and then
raises the uncaught `TypeError` from the broken eviction query, so the
request fails with the store unchanged. -/
theorem content_endpoint_cex :
    (app_content_endpoint (fun _ => true) 0 [⟨"x", 0⟩] [⟨"a", "1"⟩] 1
        (fun _ => Except.ok (3 : Nat))).result = Except.error RaisedError.typeError
    ∧ (app_content_endpoint (fun _ => true) 0 [⟨"x", 0⟩] [⟨"a", "1"⟩] 1
        (fun _ => Except.ok (3 : Nat))).store = [⟨"x", 0⟩]
    ∧ (app_content_endpoint (fun _ => true) 0 [⟨"x", 0⟩] [⟨"a", "1"⟩] 1
        (fun _ => Except.ok (3 : Nat))).loginCalls = 1
    ∧ (app_content_endpoint (fun _ => true) 0 [⟨"x", 0⟩] [⟨"a", "1"⟩] 1
        (fun _ => Except.ok (3 : Nat))).fetchCalls = 0 := by
  decide

/-- C10 amended: in the database-backed variant every content endpoint runs
the full authorize flow before fetching.  While the store holds at most
`database_limit` records, a content request with valid, not-yet-cached,
non-empty cookies performs one external login validation, inserts a new
authorization record, and then performs the fetch — the store after the
request differs from the store before, so store writes are not confined to
the add-authorization endpoint.  No eviction is ever triggered: above the
limit the authorize step raises the uncaught `TypeError` instead, with no
store write and no fetch. -/
theorem content_endpoint_store_write {α : Type} (login_status : List Cookie → Bool)
    (limit : Nat) (s : Store) (cookies : List Cookie) (t : Nat)
    (fetch : List Cookie → Except HTTPError α)
    (hne : cookies ≠ []) (hval : login_status cookies = true)
    (hfresh : s.any (fun r => r.id == cookies_id cookies) = false)
    (hcap : s.length ≤ limit) :
    (app_content_endpoint login_status limit s cookies t fetch).loginCalls = 1
    ∧ (app_content_endpoint login_status limit s cookies t fetch).store
        = ⟨cookies_id cookies, t⟩ :: s
    ∧ (app_content_endpoint login_status limit s cookies t fetch).store.any
        (fun r => r.id == cookies_id cookies) = true
    ∧ (app_content_endpoint login_status limit s cookies t fetch).store ≠ s
    ∧ (app_content_endpoint login_status limit s cookies t fetch).result
        = (fetch cookies).mapError RaisedError.http
    ∧ (app_content_endpoint login_status limit s cookies t fetch).fetchCalls = 1 := by
  have hemp : cookies.isEmpty = false := by
    cases cookies with
    | nil => exact absurd rfl hne
    | cons a l => rfl
  have hins : insertAuth limit s (cookies_id cookies) t
      = Except.ok (⟨cookies_id cookies, t⟩ :: s) := by
    unfold insertAuth
    rw [if_neg (by omega)]
  have h1 : app_content_endpoint login_status limit s cookies t fetch
      = ⟨(fetch cookies).mapError RaisedError.http, ⟨cookies_id cookies, t⟩ :: s, 1, 1⟩ := by
    simp [app_content_endpoint, authorize_cookies, hemp, authorizeWithId, hfresh, hval, hins]
  rw [h1]
  refine ⟨rfl, rfl, by simp, ?_, rfl, rfl⟩
  intro h
  have h' : (⟨cookies_id cookies, t⟩ :: s : Store) = s := h
  have hany : s.any (fun r => r.id == cookies_id cookies) = true := by
    rw [← h']
    simp
  rw [hany] at hfresh
  exact Bool.noConfusion hfresh

/-- C10 witness: a concrete content request with fresh valid cookies on an
in-capacity store writes the store and performs the fetch. -/
theorem content_endpoint_store_write_witness :
    (app_content_endpoint (fun _ => true) 5 [] [⟨"a", "1"⟩] 0
        (fun _ => Except.ok (3 : Nat))).loginCalls = 1
    ∧ (app_content_endpoint (fun _ => true) 5 [] [⟨"a", "1"⟩] 0
        (fun _ => Except.ok (3 : Nat))).store = [⟨cookies_id [⟨"a", "1"⟩], 0⟩]
    ∧ (app_content_endpoint (fun _ => true) 5 [] [⟨"a", "1"⟩] 0
        (fun _ => Except.ok (3 : Nat))).store.any
        (fun r => r.id == cookies_id [⟨"a", "1"⟩]) = true
    ∧ (app_content_endpoint (fun _ => true) 5 [] [⟨"a", "1"⟩] 0
        (fun _ => Except.ok (3 : Nat))).store ≠ []
    ∧ (app_content_endpoint (fun _ => true) 5 [] [⟨"a", "1"⟩] 0
        (fun _ => Except.ok (3 : Nat))).result = Except.ok 3
    ∧ (app_content_endpoint (fun _ => true) 5 [] [⟨"a", "1"⟩] 0
        (fun _ => Except.ok (3 : Nat))).fetchCalls = 1 :=
  content_endpoint_store_write (fun _ => true) 5 [] [⟨"a", "1"⟩] 0
    (fun _ => Except.ok (3 : Nat)) (by decide) rfl rfl (by decide)

/-! ## C1: the eviction bound -/

/-- C1: the eviction sweep can never run.  Whenever `count > database_limit`
the query at `src/app/main.py` line 170 receives the bare int
`tot - database_limit` as its psycopg2 parameters and raises `TypeError`
before any SQL executes, so nothing is ever deleted and the insert is never
reached.  Concretely, with `database_limit = 1` and sequential authorize
attempts for distinct valid fingerprints `cexFp 0, cexFp 1, ...` from an
empty store: the first two inserts succeed and leave 2 records (already
above the claimed bound of 1); the third and fourth attempts fail with the
uncaught `TypeError`, changing nothing, so after 4 attempts the store still
holds exactly the two OLDEST fingerprints (`added_at` 0 and 1) — the store
never returns to `database_limit` and it is the newest insertions, not the
oldest records, that are missing. -/
theorem eviction_never_runs :
    (runN 1 cexFp 2).length = 2
    ∧ 1 < (runN 1 cexFp 2).length
    ∧ (authorizeWithId true 1 (runN 1 cexFp 2) (cexFp 2) 2).result
        = Except.error RaisedError.typeError
    ∧ (authorizeWithId true 1 (runN 1 cexFp 2) (cexFp 2) 2).extCalls = 1
    ∧ (authorizeWithId true 1 (runN 1 cexFp 2) (cexFp 2) 2).store = runN 1 cexFp 2
    ∧ runN 1 cexFp 4 = runN 1 cexFp 2
    ∧ (runN 1 cexFp 4).map AuthRecord.added = [1, 0] := by
  decide

end FurAffinityApi
